import Mathlib

/-!
Shallow embedding of `pytorch_lightning/callbacks/gpu_stats_monitor.py`
(class `GPUStatsMonitor`): the nvidia-smi output parser `_get_gpu_stat`,
the step-timing state held in `snap_intra_step_time` / `snap_inter_step_time`,
and the lifecycle hooks `on_train_epoch_start`, `on_train_batch_start`,
`on_train_batch_end`, together with the configuration checks in `__init__`
and `on_train_start`.

Modelling conventions:
* Python floats are modelled as exact rationals (`ℚ`); the clock value
  `time.time()` during one hook call is modelled as a single rational
  argument `now` of that hook.
* The external `nvidia-smi` invocation (`subprocess.run(..., check=True)`)
  is modelled by a `QueryEnv`: `none` for a failed invocation (non-zero exit
  or failure to start, which `check=True` turns into a raised
  `CalledProcessError`), `some stdout` for a successful one.
* A raised Python exception is modelled as an `Except.error`.
* `trainer.logger.log_metrics(dict, step)` calls are collected in order as a
  list of `LogCall` values; a Python dict built from distinct keys is
  modelled as the association list in insertion order.
* `os.linesep` is `"\n"` (the code runs on Linux).
-/

/-- Python whitespace characters recognised by `str.strip()` / `float()`. -/
def pyWs (c : Char) : Bool :=
  c = ' ' || c = '\t' || c = '\n' || c = '\r' || c = '\x0b' || c = '\x0c'

/-- Python `str.strip()` on the character list of a string. -/
def pyStrip (l : List Char) : List Char :=
  ((l.dropWhile pyWs).reverse.dropWhile pyWs).reverse

/-- Python `s.split("\n")` (the `os.linesep` split in `_get_gpu_stat`):
splits at every newline, keeping empty pieces; the empty string yields
one empty piece. -/
def splitLines : List Char → List (List Char)
  | [] => [[]]
  | c :: rest =>
    match splitLines rest with
    | [] => [[c]]
    | h :: t => if c = '\n' then [] :: h :: t else (c :: h) :: t

/-- Numeric value of a digit list, most significant digit first. -/
def natOfDigits (l : List Char) : ℕ :=
  l.foldl (fun a c => a * 10 + (c.toNat - 48)) 0

/-- Unsigned part of a Python float literal: digits with an optional
fractional part (`"10"`, `"10.5"`, `"10."`, `".5"`). -/
def parseUnsignedFloat (l : List Char) : Option ℚ :=
  let ip := l.takeWhile Char.isDigit
  match l.dropWhile Char.isDigit with
  | [] => if ip.isEmpty then none else some (natOfDigits ip)
  | '.' :: fp =>
    if fp.all Char.isDigit && !(ip.isEmpty && fp.isEmpty) then
      some ((natOfDigits ip : ℚ) + (natOfDigits fp : ℚ) / ((10 : ℚ) ^ fp.length))
    else none
  | _ => none

/-- Modelled from the Python builtin `float(str)` as used by `_get_gpu_stat`
(the builtin is not part of this repository): surrounding whitespace is
ignored, then an optionally signed decimal numeral with optional fractional
part is accepted; anything else (including the empty string and forms such
as exponents, `inf`, `nan`, which no claim exercises) is a parse failure,
i.e. a raised `ValueError`. -/
def pyFloat (l : List Char) : Option ℚ :=
  match pyStrip l with
  | '+' :: rest => parseUnsignedFloat rest
  | '-' :: rest => (parseUnsignedFloat rest).map (fun q => -q)
  | rest => parseUnsignedFloat rest

/-- The list comprehension `[float(x) for x in ...]`: all pieces must parse,
a single failure raises `ValueError` for the whole comprehension
(discarding any successfully parsed pieces). -/
def parseFloats : List (List Char) → Option (List ℚ)
  | [] => some []
  | x :: xs =>
    match pyFloat x, parseFloats xs with
    | some v, some vs => some (v :: vs)
    | _, _ => none

/-- The `gpu_usage` list of `_get_gpu_stat`:
`[float(x) for x in result.stdout.strip().split(os.linesep)]` with the
`except ValueError: gpu_usage = [0]` fallback. -/
def gpuUsageOf (stdout : String) : List ℚ :=
  match parseFloats (splitLines (pyStrip stdout.data)) with
  | some vs => vs
  | none => [0]

/-- The metric-name convention of `_get_gpu_stat`:
the f-string `"gpu_{pitem}/gpu_id_{index} ({unit})"`. -/
def statName (pitem unit : String) (index : ℕ) : String :=
  "gpu_" ++ pitem ++ "/gpu_id_" ++ toString index ++ " (" ++ unit ++ ")"

/-- Exceptions raised by the modelled code: `subprocess.CalledProcessError`
(from `check=True`) and the two `MisconfigurationException`s of
`__init__` and `on_train_start`. -/
inductive PyError where
  | calledProcessError
  | misconfigurationNoDriver
  | misconfigurationNoLogger
  deriving DecidableEq

/-- Result of one `nvidia-smi --query-gpu=<field>` invocation: `none` when
the process cannot be started or exits non-zero, `some stdout` on exit
status 0. -/
abbrev QueryEnv := String → Option String

/-- One `trainer.logger.log_metrics(metrics, step)` call: the metrics dict
(as an association list in insertion order) and the step index. -/
abbrev LogCall := List (String × ℚ) × ℕ

/-- `GPUStatsMonitor._get_gpu_stat(pitem, unit)`: runs the query (raising
`CalledProcessError` on invocation failure via `check=True`), parses the
stripped stdout line by line, falls back to `[0]` when parsing raises
`ValueError`, and builds the dict keyed by `statName`. -/
def _get_gpu_stat (env : QueryEnv) (pitem unit : String) :
    Except PyError (List (String × ℚ)) :=
  match env pitem with
  | none => .error .calledProcessError
  | some stdout =>
    .ok ((gpuUsageOf stdout).enum.map (fun p => (statName pitem unit p.1, p.2)))

/-- The dict produced by a `_get_gpu_stat` call that did not raise, and `[]`
for one that raised (used only to state properties; the hooks below use
`_get_gpu_stat` itself). -/
def gpuStatOr (env : QueryEnv) (pitem unit : String) : List (String × ℚ) :=
  match _get_gpu_stat env pitem unit with
  | .ok b => b
  | .error _ => []

/-- The `self._log_stats` attribute dict built by `GPUStatsMonitor.__init__`:
the six boolean configuration flags, in source order. -/
structure LogStats where
  memory_utilization : Bool
  gpu_utilization : Bool
  intra_step_time : Bool
  inter_step_time : Bool
  fan_speed : Bool
  temperature : Bool
  deriving DecidableEq

/-- The mutable timing attributes of the callback:
`snap_intra_step_time` and `snap_inter_step_time`, each `None` or a
`time.time()` value. -/
structure MonitorState where
  snap_intra_step_time : Option ℚ
  snap_inter_step_time : Option ℚ
  deriving DecidableEq

/-- Python truthiness of an optional float, as tested by
`if ... and self.snap_..._step_time:`: `None` and `0.0` are falsy,
every other float is truthy. -/
def pyTruthy : Option ℚ → Bool
  | none => false
  | some t => decide (t ≠ 0)

/-- The single query of `_log_usage`. -/
def usageSpecs : List (String × String) := [("utilization.gpu", "%")]

/-- The three queries of `_log_memory`, in source order. -/
def memorySpecs : List (String × String) :=
  [("memory.used", "MB"), ("memory.free", "MB"), ("utilization.memory", "%")]

/-- The fan-speed query of `on_train_batch_end`. -/
def fanSpecs : List (String × String) := [("fan.speed", "%")]

/-- The two temperature queries of `on_train_batch_end`, in source order. -/
def temperatureSpecs : List (String × String) :=
  [("temperature.gpu", "degrees C"), ("temperature.memory", "degrees C")]

/-- The `(pitem, unit)` queries issued by `on_train_batch_start`, in source
order: `_log_usage` if `gpu_utilization`, then `_log_memory` if
`memory_utilization`. -/
def startSpecs (cfg : LogStats) : List (String × String) :=
  (if cfg.gpu_utilization then usageSpecs else [])
    ++ (if cfg.memory_utilization then memorySpecs else [])

/-- The `(pitem, unit)` queries issued by `on_train_batch_end`, in source
order: usage and memory as at batch start, then fan speed if `fan_speed`,
then the two temperatures if `temperature`. -/
def endSpecs (cfg : LogStats) : List (String × String) :=
  startSpecs cfg
    ++ (if cfg.fan_speed then fanSpecs else [])
    ++ (if cfg.temperature then temperatureSpecs else [])

/-- Runs a sequence of `_get_gpu_stat` queries, emitting each returned dict
as its own `log_metrics(dict, step)` call; a raised `CalledProcessError`
aborts the sequence, keeping the calls already emitted. -/
def runStats (env : QueryEnv) (specs : List (String × String)) (step : ℕ) :
    List LogCall × Except PyError Unit :=
  match specs with
  | [] => ([], .ok ())
  | (f, u) :: rest =>
    match _get_gpu_stat env f u with
    | .error e => ([], .error e)
    | .ok b =>
      match runStats env rest step with
      | (l, r) => ((b, step) :: l, r)

/-- `GPUStatsMonitor.on_train_epoch_start`: resets both timing snapshots to
`None`. -/
def on_train_epoch_start (_st : MonitorState) : MonitorState := ⟨none, none⟩

/-- `GPUStatsMonitor.on_train_batch_start(trainer, ...)`: logs usage and
memory according to the flags, then logs the inter-step time when
`inter_step_time` is set and `snap_inter_step_time` is truthy, then records
`now` in `snap_intra_step_time` when `intra_step_time` is set. `step` is
`trainer.global_step`; `now` is `time.time()` during this call. A query
failure raises, keeping the calls already emitted and leaving the state
untouched. -/
def on_train_batch_start (env : QueryEnv) (cfg : LogStats) (st : MonitorState)
    (step : ℕ) (now : ℚ) : List LogCall × Except PyError MonitorState :=
  match runStats env (startSpecs cfg) step with
  | (calls, .error e) => (calls, .error e)
  | (calls, .ok _) =>
    let interCalls :=
      if cfg.inter_step_time && pyTruthy st.snap_inter_step_time then
        [([("batch_time/inter_step (ms)",
            (now - st.snap_inter_step_time.getD 0) * 1000)], step)]
      else []
    let st1 : MonitorState :=
      if cfg.intra_step_time then ⟨some now, st.snap_inter_step_time⟩ else st
    (calls ++ interCalls, .ok st1)

/-- `GPUStatsMonitor.on_train_batch_end(trainer, ...)`: logs usage, memory,
fan speed and temperatures according to the flags, then records `now` in
`snap_inter_step_time` when `inter_step_time` is set, then logs the
intra-step time when `intra_step_time` is set and `snap_intra_step_time`
is truthy. -/
def on_train_batch_end (env : QueryEnv) (cfg : LogStats) (st : MonitorState)
    (step : ℕ) (now : ℚ) : List LogCall × Except PyError MonitorState :=
  match runStats env (endSpecs cfg) step with
  | (calls, .error e) => (calls, .error e)
  | (calls, .ok _) =>
    let st1 : MonitorState :=
      if cfg.inter_step_time then ⟨st.snap_intra_step_time, some now⟩ else st
    let intraCalls :=
      if cfg.intra_step_time && pyTruthy st.snap_intra_step_time then
        [([("batch_time/intra_step (ms)",
            (now - st.snap_intra_step_time.getD 0) * 1000)], step)]
      else []
    (calls ++ intraCalls, .ok st1)

/-- One epoch worth of alternating hook calls after the epoch-start reset:
each list element is `(global_step, time at batch start, time at batch end)`;
a raised error aborts the epoch, keeping the calls already emitted. -/
def runSteps (env : QueryEnv) (cfg : LogStats) :
    MonitorState → List (ℕ × ℚ × ℚ) → List LogCall × Except PyError MonitorState
  | st, [] => ([], .ok st)
  | st, (step, ts, te) :: rest =>
    match on_train_batch_start env cfg st step ts with
    | (l1, .error e) => (l1, .error e)
    | (l1, .ok st1) =>
      match on_train_batch_end env cfg st1 step te with
      | (l2, .error e) => (l1 ++ l2, .error e)
      | (l2, .ok st2) =>
        match runSteps env cfg st2 rest with
        | (l3, r) => (l1 ++ l2 ++ l3, r)

/-- A full epoch: `on_train_epoch_start` followed by the step hooks. -/
def runEpoch (env : QueryEnv) (cfg : LogStats) (st : MonitorState)
    (steps : List (ℕ × ℚ × ℚ)) : List LogCall × Except PyError MonitorState :=
  runSteps env cfg (on_train_epoch_start st) steps

/-- `GPUStatsMonitor.__init__`: raises `MisconfigurationException` when
`shutil.which("nvidia-smi")` is `None` (modelled by the boolean
`nvidiaSmiPresent`), otherwise stores the six flags in `_log_stats`. -/
def monitorInit (nvidiaSmiPresent : Bool)
    (memory_utilization gpu_utilization intra_step_time inter_step_time
      fan_speed temperature : Bool) : Except PyError LogStats :=
  if nvidiaSmiPresent then
    .ok ⟨memory_utilization, gpu_utilization, intra_step_time, inter_step_time,
         fan_speed, temperature⟩
  else .error .misconfigurationNoDriver

/-- `GPUStatsMonitor.on_train_start`: raises `MisconfigurationException`
when the trainer has no logger; otherwise returns whether the
not-running-on-GPU warning was issued (`not trainer.on_gpu`). -/
def on_train_start (loggerPresent onGpu : Bool) : Except PyError Bool :=
  if loggerPresent then .ok (!onGpu) else .error .misconfigurationNoLogger

/-- Modelled from the spec: the host training loop (not part of this
repository source file) constructs the callback, invokes
`on_train_start`, and only then runs the epoch hooks; a configuration
error raised by either check halts startup, so no step hook runs and
nothing is logged (spec section 7). -/
def runTraining (nvidiaSmiPresent loggerPresent onGpu : Bool)
    (memory_utilization gpu_utilization intra_step_time inter_step_time
      fan_speed temperature : Bool)
    (env : QueryEnv) (st : MonitorState) (steps : List (ℕ × ℚ × ℚ)) :
    List LogCall × Except PyError MonitorState :=
  match monitorInit nvidiaSmiPresent memory_utilization gpu_utilization
      intra_step_time inter_step_time fan_speed temperature with
  | .error e => ([], .error e)
  | .ok cfg =>
    match on_train_start loggerPresent onGpu with
    | .error e => ([], .error e)
    | .ok _ => runEpoch env cfg st steps

/-- Whether the dict of a `log_metrics` call contains the metric name `tn`. -/
def hasMetricName (tn : String) (c : LogCall) : Bool :=
  c.1.any (fun p => p.1 == tn)

/-- Whether `p` is a prefix of `s`, on the underlying character lists. -/
def strStarts (p s : String) : Bool :=
  p.data.isPrefixOf s.data

/-- Whether a metric name belongs to the memory composite logged by
`_log_memory` (fields `memory.used`, `memory.free`, `utilization.memory`). -/
def isMemName (n : String) : Bool :=
  strStarts "gpu_memory.used" n || strStarts "gpu_memory.free" n
    || strStarts "gpu_utilization.memory" n

/-- Whether a `log_metrics` call is one of the three calls of
`_log_memory`, decided by its first metric name. -/
def isMemCall (c : LogCall) : Bool :=
  match c.1 with
  | [] => false
  | q :: _ => isMemName q.1


theorem splitLines_ne_nil : ∀ l : List Char, splitLines l ≠ [] := by
  intro l
  cases l with
  | nil => simp [splitLines]
  | cons c rest =>
    simp only [splitLines]
    cases hsl : splitLines rest with
    | nil => simp
    | cons h t => by_cases hc : c = '\n' <;> simp [hc]

theorem parseFloats_length :
    ∀ (ls : List (List Char)) (vs : List ℚ),
      parseFloats ls = some vs → vs.length = ls.length := by
  intro ls
  induction ls with
  | nil => intro vs h; simp [parseFloats] at h; simp [h.symm]
  | cons x xs ih =>
    intro vs h
    simp only [parseFloats] at h
    cases hx : pyFloat x with
    | none => rw [hx] at h; simp at h
    | some v =>
      rw [hx] at h
      cases hxs : parseFloats xs with
      | none => rw [hxs] at h; simp at h
      | some ws =>
        rw [hxs] at h
        simp at h
        rw [h.symm]
        simp [ih ws hxs]

theorem gpuUsageOf_cons (s : String) : ∃ v vs, gpuUsageOf s = v :: vs := by
  unfold gpuUsageOf
  cases hp : parseFloats (splitLines (pyStrip s.data)) with
  | none => exact ⟨0, [], rfl⟩
  | some vs =>
    have hlen : vs.length = (splitLines (pyStrip s.data)).length :=
      parseFloats_length _ _ hp
    have hne : vs ≠ [] := by
      intro hv
      exact splitLines_ne_nil (pyStrip s.data)
        (List.length_eq_zero.mp (by rw [← hlen, hv]; rfl))
    obtain ⟨v, t, hvt⟩ := List.exists_cons_of_ne_nil hne
    exact ⟨v, t, by rw [hvt]⟩

theorem get_gpu_stat_ok_elim (env : QueryEnv) (f u : String)
    (b : List (String × ℚ)) (h : _get_gpu_stat env f u = .ok b) :
    ∃ s, env f = some s
      ∧ b = (gpuUsageOf s).enum.map (fun p => (statName f u p.1, p.2)) := by
  unfold _get_gpu_stat at h
  cases he : env f with
  | none => rw [he] at h; simp at h
  | some s => rw [he] at h; simp at h; exact ⟨s, rfl, h.symm⟩

theorem gpuStatOr_of_ok (env : QueryEnv) (f u : String)
    (b : List (String × ℚ)) (h : _get_gpu_stat env f u = .ok b) :
    gpuStatOr env f u = b := by
  unfold gpuStatOr; rw [h]

theorem gpuStatOr_head (env : QueryEnv) (f u s : String) (h : env f = some s) :
    ∃ v t, gpuStatOr env f u = (statName f u 0, v) :: t := by
  obtain ⟨v, vs, hv⟩ := gpuUsageOf_cons s
  have hok : _get_gpu_stat env f u
      = .ok ((gpuUsageOf s).enum.map (fun p => (statName f u p.1, p.2))) := by
    unfold _get_gpu_stat
    rw [h]
  refine ⟨v, (vs.enumFrom 1).map (fun p => (statName f u p.1, p.2)), ?_⟩
  rw [gpuStatOr_of_ok env f u _ hok, hv]
  simp [List.enum_cons]

theorem mem_gpuStatOr_name (env : QueryEnv) (f u : String) (q : String × ℚ)
    (h : q ∈ gpuStatOr env f u) : ∃ i, q.1 = statName f u i := by
  unfold gpuStatOr at h
  cases he : _get_gpu_stat env f u with
  | error e => rw [he] at h; simp at h
  | ok b =>
    rw [he] at h
    obtain ⟨s, _, hb⟩ := get_gpu_stat_ok_elim env f u b he
    rw [hb] at h
    obtain ⟨p, _, hp⟩ := List.mem_map.mp h
    exact ⟨p.1, by rw [← hp]⟩

theorem statName_data_head (p u : String) (i : ℕ) :
    (statName p u i).data.head? = some 'g' := by
  have h4 : "gpu_".data = 'g' :: "pu_".data := rfl
  simp [statName, String.data_append, h4]

theorem statName_ne (p u : String) (i : ℕ) (tn : String)
    (h : tn.data.head? ≠ some 'g') : statName p u i ≠ tn := by
  intro he
  exact h (he ▸ statName_data_head p u i)

theorem hasMetricName_gpuStatOr (env : QueryEnv) (f u tn : String) (step : ℕ)
    (h : tn.data.head? ≠ some 'g') :
    hasMetricName tn (gpuStatOr env f u, step) = false := by
  unfold hasMetricName
  rw [List.any_eq_false]
  intro q hq
  obtain ⟨i, hi⟩ := mem_gpuStatOr_name env f u q hq
  simp [hi, beq_eq_false_iff_ne.mpr (statName_ne f u i tn h)]

theorem runStats_mem (env : QueryEnv) (specs : List (String × String))
    (step : ℕ) (c : LogCall) (h : c ∈ (runStats env specs step).1) :
    ∃ p ∈ specs, c = (gpuStatOr env p.1 p.2, step) := by
  induction specs with
  | nil => simp [runStats] at h
  | cons fu rest ih =>
    obtain ⟨f, u⟩ := fu
    simp only [runStats] at h
    cases hq : _get_gpu_stat env f u with
    | error e => rw [hq] at h; simp at h
    | ok b =>
      rw [hq] at h
      cases hr : runStats env rest step with
      | mk l r =>
        rw [hr] at h
        simp at h
        cases h with
        | inl h1 =>
          exact ⟨(f, u), List.mem_cons_self _ _,
            by rw [h1, gpuStatOr_of_ok env f u b hq]⟩
        | inr h2 =>
          obtain ⟨p, hp, hc⟩ := ih (by rw [hr]; exact h2)
          exact ⟨p, List.mem_cons_of_mem _ hp, hc⟩

theorem runStats_filter_timing (env : QueryEnv) (specs : List (String × String))
    (step : ℕ) (tn : String) (h : tn.data.head? ≠ some 'g') :
    ((runStats env specs step).1).filter (hasMetricName tn) = [] := by
  rw [List.filter_eq_nil_iff]
  intro c hc
  obtain ⟨p, _, hcp⟩ := runStats_mem env specs step c hc
  rw [hcp]
  simp [hasMetricName_gpuStatOr env p.1 p.2 tn step h]

theorem runStats_ok_eq (env : QueryEnv) (specs : List (String × String))
    (step : ℕ) (calls : List LogCall) (u : Unit)
    (h : runStats env specs step = (calls, .ok u)) :
    calls = specs.map (fun p => (gpuStatOr env p.1 p.2, step)) := by
  induction specs generalizing calls with
  | nil => simp [runStats] at h; simp [h.symm]
  | cons fu rest ih =>
    obtain ⟨f, u'⟩ := fu
    simp only [runStats] at h
    cases hq : _get_gpu_stat env f u' with
    | error e => rw [hq] at h; simp at h
    | ok b =>
      rw [hq] at h
      cases hr : runStats env rest step with
      | mk l r =>
        rw [hr] at h
        simp at h
        obtain ⟨hcalls, hru⟩ := h
        rw [← hcalls]
        have : l = rest.map (fun p => (gpuStatOr env p.1 p.2, step)) :=
          ih l (by rw [hr, hru])
        simp [this, gpuStatOr_of_ok env f u' b hq]

theorem runStats_ok_mem (env : QueryEnv) (specs : List (String × String))
    (step : ℕ) (calls : List LogCall) (u : Unit)
    (h : runStats env specs step = (calls, .ok u)) :
    ∀ p ∈ specs, ∃ b, _get_gpu_stat env p.1 p.2 = .ok b := by
  induction specs generalizing calls with
  | nil => simp
  | cons fu rest ih =>
    obtain ⟨f, u'⟩ := fu
    simp only [runStats] at h
    cases hq : _get_gpu_stat env f u' with
    | error e => rw [hq] at h; simp at h
    | ok b =>
      rw [hq] at h
      cases hr : runStats env rest step with
      | mk l r =>
        rw [hr] at h
        simp at h
        intro p hp
        cases hp with
        | head => exact ⟨b, hq⟩
        | tail _ hmem => exact ih l (by rw [hr, h.2]) p hmem

theorem on_train_batch_start_ok (env : QueryEnv) (cfg : LogStats)
    (st : MonitorState) (step : ℕ) (now : ℚ) (L : List LogCall)
    (st' : MonitorState)
    (h : on_train_batch_start env cfg st step now = (L, .ok st')) :
    (runStats env (startSpecs cfg) step).2 = .ok ()
    ∧ L = (runStats env (startSpecs cfg) step).1
          ++ (if cfg.inter_step_time && pyTruthy st.snap_inter_step_time then
               [([("batch_time/inter_step (ms)",
                   (now - st.snap_inter_step_time.getD 0) * 1000)], step)]
             else [])
    ∧ st' = (if cfg.intra_step_time then
              (⟨some now, st.snap_inter_step_time⟩ : MonitorState) else st) := by
  unfold on_train_batch_start at h
  cases hr : runStats env (startSpecs cfg) step with
  | mk calls r =>
    rw [hr] at h
    cases r with
    | error e => simp at h
    | ok u =>
      simp at h ⊢
      exact ⟨h.1.symm, h.2.symm⟩

theorem on_train_batch_end_ok (env : QueryEnv) (cfg : LogStats)
    (st : MonitorState) (step : ℕ) (now : ℚ) (L : List LogCall)
    (st' : MonitorState)
    (h : on_train_batch_end env cfg st step now = (L, .ok st')) :
    (runStats env (endSpecs cfg) step).2 = .ok ()
    ∧ L = (runStats env (endSpecs cfg) step).1
          ++ (if cfg.intra_step_time && pyTruthy st.snap_intra_step_time then
               [([("batch_time/intra_step (ms)",
                   (now - st.snap_intra_step_time.getD 0) * 1000)], step)]
             else [])
    ∧ st' = (if cfg.inter_step_time then
              (⟨st.snap_intra_step_time, some now⟩ : MonitorState) else st) := by
  unfold on_train_batch_end at h
  cases hr : runStats env (endSpecs cfg) step with
  | mk calls r =>
    rw [hr] at h
    cases r with
    | error e => simp at h
    | ok u =>
      simp at h ⊢
      exact ⟨h.1.symm, h.2.symm⟩

theorem on_train_batch_start_filter_of_guard_false (env : QueryEnv)
    (cfg : LogStats) (st : MonitorState) (step : ℕ) (now : ℚ) (tn : String)
    (hg : tn.data.head? ≠ some 'g')
    (hf : (cfg.inter_step_time && pyTruthy st.snap_inter_step_time) = false) :
    ((on_train_batch_start env cfg st step now).1).filter (hasMetricName tn)
      = [] := by
  unfold on_train_batch_start
  cases hr : runStats env (startSpecs cfg) step with
  | mk calls r =>
    have hcalls : calls.filter (hasMetricName tn) = [] := by
      have := runStats_filter_timing env (startSpecs cfg) step tn hg
      rw [hr] at this
      exact this
    cases r with
    | error e => simpa using hcalls
    | ok u => simp [hf, hcalls]

theorem on_train_batch_end_filter_of_guard_false (env : QueryEnv)
    (cfg : LogStats) (st : MonitorState) (step : ℕ) (now : ℚ) (tn : String)
    (hg : tn.data.head? ≠ some 'g')
    (hf : (cfg.intra_step_time && pyTruthy st.snap_intra_step_time) = false) :
    ((on_train_batch_end env cfg st step now).1).filter (hasMetricName tn)
      = [] := by
  unfold on_train_batch_end
  cases hr : runStats env (endSpecs cfg) step with
  | mk calls r =>
    have hcalls : calls.filter (hasMetricName tn) = [] := by
      have := runStats_filter_timing env (endSpecs cfg) step tn hg
      rw [hr] at this
      exact this
    cases r with
    | error e => simpa using hcalls
    | ok u => simp [hf, hcalls]

/-- C1: for every query invocation that succeeds and whose stripped standard
output consists of N float-parseable lines, `_get_gpu_stat(field, unit)`
returns a mapping with exactly N entries, the i-th entry being
`"gpu_" ++ field ++ "/gpu_id_" ++ i ++ " (" ++ unit ++ ")"` mapped to the
float parse of the i-th line; in particular, output `"10\n20\n30"` for
field `utilization.gpu` with unit `%` yields exactly the three readings
10, 20 and 30 under the convention names. -/
theorem c1_get_gpu_stat_wellformed (stdout pitem unit : String) (vs : List ℚ)
    (h : parseFloats (splitLines (pyStrip stdout.data)) = some vs) :
    _get_gpu_stat (fun _ => some stdout) pitem unit
      = .ok (vs.enum.map (fun p => (statName pitem unit p.1, p.2)))
    ∧ (vs.enum.map (fun p => (statName pitem unit p.1, p.2))).length
        = (splitLines (pyStrip stdout.data)).length
    ∧ _get_gpu_stat (fun _ => some "10\n20\n30") "utilization.gpu" "%"
      = .ok [("gpu_utilization.gpu/gpu_id_0 (%)", 10),
             ("gpu_utilization.gpu/gpu_id_1 (%)", 20),
             ("gpu_utilization.gpu/gpu_id_2 (%)", 30)] := by
  refine ⟨?_, ?_, rfl⟩
  · simp only [_get_gpu_stat, gpuUsageOf, h]
  · simp [List.enum_length, parseFloats_length _ _ h]

theorem c1_get_gpu_stat_wellformed_witness :
    parseFloats (splitLines (pyStrip ("10\n20\n30").data)) = some [10, 20, 30]
    ∧ _get_gpu_stat (fun _ => some "10\n20\n30") "utilization.gpu" "%"
      = .ok (([(10 : ℚ), 20, 30]).enum.map
          (fun p => (statName "utilization.gpu" "%" p.1, p.2))) :=
  ⟨by decide,
   (c1_get_gpu_stat_wellformed "10\n20\n30" "utilization.gpu" "%"
      [10, 20, 30] (by decide)).1⟩

/-- C2: for every query invocation that succeeds but whose standard output is
empty or contains a line that does not parse as a float, `_get_gpu_stat`
does not raise and returns the single zero reading for device index 0
(successfully parsed lines are discarded). -/
theorem c2_get_gpu_stat_zero_fallback (stdout pitem unit : String)
    (h : parseFloats (splitLines (pyStrip stdout.data)) = none) :
    _get_gpu_stat (fun _ => some stdout) pitem unit
      = .ok [(statName pitem unit 0, 0)] := by
  simp only [_get_gpu_stat, gpuUsageOf, h]
  rfl

theorem c2_get_gpu_stat_zero_fallback_witness :
    parseFloats (splitLines (pyStrip ("10\nabc").data)) = none
    ∧ _get_gpu_stat (fun _ => some "10\nabc") "utilization.gpu" "%"
      = .ok [(statName "utilization.gpu" "%" 0, 0)] :=
  ⟨by decide,
   c2_get_gpu_stat_zero_fallback "10\nabc" "utilization.gpu" "%" (by decide)⟩

/-- C3: for every query invocation in which the external command exits with
non-zero status or cannot be started, `_get_gpu_stat` raises
`CalledProcessError` (via `check=True`) and never returns a mapping, so the
zero fallback is never the result of a failed invocation. -/
theorem c3_invocation_error_propagates (env : QueryEnv) (pitem unit : String)
    (h : env pitem = none) :
    _get_gpu_stat env pitem unit = .error .calledProcessError := by
  unfold _get_gpu_stat
  rw [h]

theorem c3_invocation_error_propagates_witness :
    _get_gpu_stat (fun _ => none) "utilization.gpu" "%"
      = .error .calledProcessError :=
  c3_invocation_error_propagates (fun _ => none) "utilization.gpu" "%" rfl

/-- C5: after the epoch-start reset, the first `on_train_batch_start` never
emits an inter-step metric, for every configuration, query environment and
previously recorded state. -/
theorem c5_no_inter_after_reset (env : QueryEnv) (cfg : LogStats)
    (st : MonitorState) (step : ℕ) (now : ℚ) :
    ((on_train_batch_start env cfg (on_train_epoch_start st) step now).1).filter
      (hasMetricName "batch_time/inter_step (ms)") = [] := by
  apply on_train_batch_start_filter_of_guard_false
  · decide
  · simp [on_train_epoch_start, pyTruthy]

/-- C9: a recorded timestamp of exactly 0 behaves like an absent one, because
the hooks test truthiness rather than is-None: with `snap_inter_step_time`
equal to `some 0`, `on_train_batch_start` emits no inter-step metric even
with inter-step timing enabled, and with `snap_intra_step_time` equal to
`some 0`, `on_train_batch_end` emits no intra-step metric even with
intra-step timing enabled. -/
theorem c9_zero_timestamp_is_falsy :
    (∀ (env : QueryEnv) (cfg : LogStats) (st : MonitorState) (step : ℕ)
      (now : ℚ), cfg.inter_step_time = true →
      st.snap_inter_step_time = some 0 →
      ((on_train_batch_start env cfg st step now).1).filter
        (hasMetricName "batch_time/inter_step (ms)") = [])
    ∧ (∀ (env : QueryEnv) (cfg : LogStats) (st : MonitorState) (step : ℕ)
      (now : ℚ), cfg.intra_step_time = true →
      st.snap_intra_step_time = some 0 →
      ((on_train_batch_end env cfg st step now).1).filter
        (hasMetricName "batch_time/intra_step (ms)") = []) := by
  constructor
  · intro env cfg st step now _ hsnap
    apply on_train_batch_start_filter_of_guard_false
    · decide
    · simp [hsnap, pyTruthy]
  · intro env cfg st step now _ hsnap
    apply on_train_batch_end_filter_of_guard_false
    · decide
    · simp [hsnap, pyTruthy]

theorem c9_zero_timestamp_is_falsy_witness :
    ((on_train_batch_start (fun _ => none)
        ⟨false, false, true, true, false, false⟩
        ⟨some 0, some 0⟩ 0 5).1).filter
      (hasMetricName "batch_time/inter_step (ms)") = []
    ∧ ((on_train_batch_end (fun _ => none)
        ⟨false, false, true, true, false, false⟩
        ⟨some 0, some 0⟩ 0 5).1).filter
      (hasMetricName "batch_time/intra_step (ms)") = [] :=
  ⟨c9_zero_timestamp_is_falsy.1 _ _ _ _ _ rfl rfl,
   c9_zero_timestamp_is_falsy.2 _ _ _ _ _ rfl rfl⟩

/-- C6: with all six configuration flags false, a full epoch (epoch-start
reset followed by any number of batch-start/batch-end pairs) emits no
metric record at all. -/
theorem c6_all_flags_off_silent (env : QueryEnv) (cfg : LogStats)
    (st : MonitorState) (steps : List (ℕ × ℚ × ℚ))
    (h1 : cfg.memory_utilization = false) (h2 : cfg.gpu_utilization = false)
    (h3 : cfg.intra_step_time = false) (h4 : cfg.inter_step_time = false)
    (h5 : cfg.fan_speed = false) (h6 : cfg.temperature = false) :
    (runEpoch env cfg st steps).1 = [] := by
  obtain ⟨m, g, ia, ie, fs, tp⟩ := cfg
  simp only at h1 h2 h3 h4 h5 h6
  subst h1 h2 h3 h4 h5 h6
  unfold runEpoch
  generalize on_train_epoch_start st = st0
  induction steps generalizing st0 with
  | nil => rfl
  | cons s rest ih =>
    obtain ⟨step, ts, te⟩ := s
    exact ih st0

theorem c6_all_flags_off_silent_witness :
    (runEpoch (fun _ => some "10") ⟨false, false, false, false, false, false⟩
      ⟨some 7, some 8⟩ [(0, 1, 2), (1, 3, 4)]).1 = [] :=
  c6_all_flags_off_silent (fun _ => some "10")
    ⟨false, false, false, false, false, false⟩ ⟨some 7, some 8⟩
    [(0, 1, 2), (1, 3, 4)] rfl rfl rfl rfl rfl rfl

/-- C8: both configuration preconditions are checked before any sampling:
a missing nvidia-smi makes the constructor raise
`MisconfigurationException`, and a missing logger makes `on_train_start`
raise it; in either case the training run produces no hook emissions at
all. The host loop that stops on the raised error is modelled from the
spec by `runTraining`. -/
theorem c8_config_preconditions :
    (∀ (loggerPresent onGpu m g ia ie fs tp : Bool) (env : QueryEnv)
      (st : MonitorState) (steps : List (ℕ × ℚ × ℚ)),
      runTraining false loggerPresent onGpu m g ia ie fs tp env st steps
        = ([], .error .misconfigurationNoDriver))
    ∧ (∀ (onGpu m g ia ie fs tp : Bool) (env : QueryEnv) (st : MonitorState)
      (steps : List (ℕ × ℚ × ℚ)),
      runTraining true false onGpu m g ia ie fs tp env st steps
        = ([], .error .misconfigurationNoLogger)) := by
  constructor
  · intro loggerPresent onGpu m g ia ie fs tp env st steps
    rfl
  · intro onGpu m g ia ie fs tp env st steps
    rfl

/-- C4 fails as stated: with intra- and inter-step timing enabled and the
timestamp sequence 0 < 1 < 2 < 3 (a valid strictly increasing sequence with
t0 = 0), the recorded step-start timestamp 0 is falsy, so the first
`on_train_batch_end` emits no intra-step metric: the whole trace contains
one intra-step metric instead of the claimed two. -/
theorem c4_counterexample :
    ((runEpoch (fun _ => none) ⟨false, false, true, true, false, false⟩
        ⟨none, none⟩ [(0, 0, 1), (1, 2, 3)]).1).filter
      (hasMetricName "batch_time/intra_step (ms)")
      = [([("batch_time/intra_step (ms)", ((3 : ℚ) - 2) * 1000)], 1)]
    ∧ ((runEpoch (fun _ => none) ⟨false, false, true, true, false, false⟩
        ⟨none, none⟩ [(0, 0, 1), (1, 2, 3)]).1).filter
      (hasMetricName "batch_time/intra_step (ms)")
      ≠ [([("batch_time/intra_step (ms)", ((1 : ℚ) - 0) * 1000)], 0),
         ([("batch_time/intra_step (ms)", ((3 : ℚ) - 2) * 1000)], 1)] := by
  have htrace : (runEpoch (fun _ => none)
      ⟨false, false, true, true, false, false⟩
      ⟨none, none⟩ [(0, 0, 1), (1, 2, 3)]).1
      = [([("batch_time/inter_step (ms)", ((2 : ℚ) - 1) * 1000)], 1),
         ([("batch_time/intra_step (ms)", ((3 : ℚ) - 2) * 1000)], 1)] := rfl
  have hfil : ((runEpoch (fun _ => none)
      ⟨false, false, true, true, false, false⟩
      ⟨none, none⟩ [(0, 0, 1), (1, 2, 3)]).1).filter
      (hasMetricName "batch_time/intra_step (ms)")
      = [([("batch_time/intra_step (ms)", ((3 : ℚ) - 2) * 1000)], 1)] := by
    rw [htrace]
    simp [hasMetricName]
  refine ⟨hfil, ?_⟩
  rw [hfil]
  intro h
  have hlen := congrArg List.length h
  simp at hlen

/-- C4 (amended): with intra- and inter-step timing enabled and timestamps
t0 < t1 < t2 < t3 that are nonzero where tested by truthiness (t0, t1, t2),
the sequence epoch-start reset, batch-start(t0), batch-end(t1),
batch-start(t2), batch-end(t3), with every hook completing without a query
invocation error, emits intra-step metrics (t1−t0)·1000 and (t3−t2)·1000
at the two batch ends, and exactly one inter-step metric (t2−t1)·1000,
emitted during the second batch start. -/
theorem c4_amended_both_timings (cfg : LogStats) (env : QueryEnv)
    (hia : cfg.intra_step_time = true) (hie : cfg.inter_step_time = true)
    (t0 t1 t2 t3 : ℚ) (h01 : t0 < t1) (h12 : t1 < t2) (h23 : t2 < t3)
    (hz0 : t0 ≠ 0) (hz1 : t1 ≠ 0) (hz2 : t2 ≠ 0)
    (s0 s1 s2 s3 : ℕ) (st : MonitorState)
    (L1 L2 L3 L4 : List LogCall) (st1 st2 st3 st4 : MonitorState)
    (e1 : on_train_batch_start env cfg (on_train_epoch_start st) s0 t0
      = (L1, .ok st1))
    (e2 : on_train_batch_end env cfg st1 s1 t1 = (L2, .ok st2))
    (e3 : on_train_batch_start env cfg st2 s2 t2 = (L3, .ok st3))
    (e4 : on_train_batch_end env cfg st3 s3 t3 = (L4, .ok st4)) :
    (L1 ++ L2 ++ L3 ++ L4).filter (hasMetricName "batch_time/intra_step (ms)")
      = [([("batch_time/intra_step (ms)", (t1 - t0) * 1000)], s1),
         ([("batch_time/intra_step (ms)", (t3 - t2) * 1000)], s3)]
    ∧ (L1 ++ L2 ++ L3 ++ L4).filter
        (hasMetricName "batch_time/inter_step (ms)")
      = [([("batch_time/inter_step (ms)", (t2 - t1) * 1000)], s2)]
    ∧ L3.filter (hasMetricName "batch_time/inter_step (ms)")
      = [([("batch_time/inter_step (ms)", (t2 - t1) * 1000)], s2)] := by
  obtain ⟨-, hL1, hst1⟩ := on_train_batch_start_ok _ _ _ _ _ _ _ e1
  simp [hia, on_train_epoch_start, pyTruthy] at hL1 hst1
  subst hst1
  obtain ⟨-, hL2, hst2⟩ := on_train_batch_end_ok _ _ _ _ _ _ _ e2
  simp [hia, hie, pyTruthy, hz0] at hL2 hst2
  subst hst2
  obtain ⟨-, hL3, hst3⟩ := on_train_batch_start_ok _ _ _ _ _ _ _ e3
  simp [hia, hie, pyTruthy, hz1] at hL3 hst3
  subst hst3
  obtain ⟨-, hL4, hst4⟩ := on_train_batch_end_ok _ _ _ _ _ _ _ e4
  simp [hia, pyTruthy, hz2] at hL4
  have hfa : ∀ (specs : List (String × String)) (sx : ℕ),
      ((runStats env specs sx).1).filter
        (hasMetricName "batch_time/intra_step (ms)") = [] :=
    fun specs sx => runStats_filter_timing env specs sx _ (by decide)
  have hfe : ∀ (specs : List (String × String)) (sx : ℕ),
      ((runStats env specs sx).1).filter
        (hasMetricName "batch_time/inter_step (ms)") = [] :=
    fun specs sx => runStats_filter_timing env specs sx _ (by decide)
  refine ⟨?_, ?_, ?_⟩
  · rw [hL1, hL2, hL3, hL4]
    simp [List.filter_append, hfa, hasMetricName]
  · rw [hL1, hL2, hL3, hL4]
    simp [List.filter_append, hfe, hasMetricName]
  · rw [hL3]
    simp [List.filter_append, hfe, hasMetricName]

theorem c4_amended_both_timings_witness :
    (([] ++ [([("batch_time/intra_step (ms)", ((2 : ℚ) - 1) * 1000)], 0)]
        ++ [([("batch_time/inter_step (ms)", ((3 : ℚ) - 2) * 1000)], 1)]
        ++ [([("batch_time/intra_step (ms)", ((4 : ℚ) - 3) * 1000)], 1)]).filter
      (hasMetricName "batch_time/intra_step (ms)")
      = [([("batch_time/intra_step (ms)", ((2 : ℚ) - 1) * 1000)], 0),
         ([("batch_time/intra_step (ms)", ((4 : ℚ) - 3) * 1000)], 1)])
    ∧ (([] ++ [([("batch_time/intra_step (ms)", ((2 : ℚ) - 1) * 1000)], 0)]
        ++ [([("batch_time/inter_step (ms)", ((3 : ℚ) - 2) * 1000)], 1)]
        ++ [([("batch_time/intra_step (ms)", ((4 : ℚ) - 3) * 1000)], 1)]).filter
      (hasMetricName "batch_time/inter_step (ms)")
      = [([("batch_time/inter_step (ms)", ((3 : ℚ) - 2) * 1000)], 1)])
    ∧ ([([("batch_time/inter_step (ms)", ((3 : ℚ) - 2) * 1000)], 1)].filter
      (hasMetricName "batch_time/inter_step (ms)")
      = [([("batch_time/inter_step (ms)", ((3 : ℚ) - 2) * 1000)], 1)]) :=
  c4_amended_both_timings ⟨false, false, true, true, false, false⟩
    (fun _ => none) rfl rfl 1 2 3 4
    (by norm_num) (by norm_num) (by norm_num)
    (by norm_num) (by norm_num) (by norm_num)
    0 0 1 1 ⟨none, none⟩
    [] [([("batch_time/intra_step (ms)", ((2 : ℚ) - 1) * 1000)], 0)]
    [([("batch_time/inter_step (ms)", ((3 : ℚ) - 2) * 1000)], 1)]
    [([("batch_time/intra_step (ms)", ((4 : ℚ) - 3) * 1000)], 1)]
    ⟨some 1, none⟩ ⟨some 1, some 2⟩ ⟨some 3, some 2⟩ ⟨some 3, some 4⟩
    rfl rfl rfl rfl

theorem isMemCall_gpuStatOr_false (env : QueryEnv) (f u : String) (sx : ℕ)
    (h : isMemName (statName f u 0) = false) :
    isMemCall (gpuStatOr env f u, sx) = false := by
  cases he : env f with
  | none =>
    have hnil : gpuStatOr env f u = [] := by
      unfold gpuStatOr _get_gpu_stat
      rw [he]
    rw [hnil]
    rfl
  | some s =>
    obtain ⟨v, t, hvt⟩ := gpuStatOr_head env f u s he
    rw [hvt]
    exact h

theorem isMemCall_gpuStatOr_true (env : QueryEnv) (f u s : String) (sx : ℕ)
    (he : env f = some s) (h : isMemName (statName f u 0) = true) :
    isMemCall (gpuStatOr env f u, sx) = true := by
  obtain ⟨v, t, hvt⟩ := gpuStatOr_head env f u s he
  rw [hvt]
  exact h

theorem filter_isMemCall_specs_map (env : QueryEnv)
    (specs : List (String × String)) (sx : ℕ)
    (h : ∀ p ∈ specs, isMemName (statName p.1 p.2 0) = false) :
    ((specs.map (fun p => (gpuStatOr env p.1 p.2, sx))).filter isMemCall)
      = [] := by
  rw [List.filter_eq_nil_iff]
  intro c hc
  obtain ⟨p, hp, hcp⟩ := List.mem_map.mp hc
  rw [← hcp]
  simp [isMemCall_gpuStatOr_false env p.1 p.2 sx (h p hp)]

theorem filter_isMemCall_if_specs (env : QueryEnv) (b : Bool)
    (specs : List (String × String)) (sx : ℕ)
    (h : ∀ p ∈ specs, isMemName (statName p.1 p.2 0) = false) :
    (((if b then specs else []).map
        (fun p => (gpuStatOr env p.1 p.2, sx))).filter isMemCall) = [] := by
  cases b
  · simp
  · simpa using filter_isMemCall_specs_map env specs sx h

theorem filter_isMemCall_timing_if (c : Prop) [Decidable c] (tn : String)
    (v : ℚ) (sx : ℕ) (h : isMemName tn = false) :
    ((if c then [([(tn, v)], sx)] else []) : List LogCall).filter isMemCall
      = [] := by
  split
  · have hm : isMemCall ([(tn, v)], sx) = false := h
    simp [hm]
  · rfl

theorem filter_isMemCall_memory (env : QueryEnv) (sx : ℕ) (s1 s2 s3 : String)
    (h1 : env "memory.used" = some s1) (h2 : env "memory.free" = some s2)
    (h3 : env "utilization.memory" = some s3) :
    ((memorySpecs.map (fun p => (gpuStatOr env p.1 p.2, sx))).filter isMemCall)
      = [(gpuStatOr env "memory.used" "MB", sx),
         (gpuStatOr env "memory.free" "MB", sx),
         (gpuStatOr env "utilization.memory" "%", sx)] := by
  have t1 := isMemCall_gpuStatOr_true env "memory.used" "MB" s1 sx h1 (by decide)
  have t2 := isMemCall_gpuStatOr_true env "memory.free" "MB" s2 sx h2 (by decide)
  have t3 := isMemCall_gpuStatOr_true env "utilization.memory" "%" s3 sx h3
    (by decide)
  simp [memorySpecs, List.filter_cons, t1, t2, t3]

/-- C7: whenever memory sampling is enabled, each step hook that completes
emits the memory composite as exactly three separate `log_metrics` calls,
one per field `memory.used`, `memory.free`, `utilization.memory`, in that
order, each carrying the step index of the hook. -/
theorem c7_memory_composite (env : QueryEnv) (cfg : LogStats)
    (stA stB : MonitorState) (stepA stepB : ℕ) (nowA nowB : ℚ)
    (LA LB : List LogCall) (stA' stB' : MonitorState)
    (hmem : cfg.memory_utilization = true)
    (hA : on_train_batch_start env cfg stA stepA nowA = (LA, .ok stA'))
    (hB : on_train_batch_end env cfg stB stepB nowB = (LB, .ok stB')) :
    LA.filter isMemCall
      = [(gpuStatOr env "memory.used" "MB", stepA),
         (gpuStatOr env "memory.free" "MB", stepA),
         (gpuStatOr env "utilization.memory" "%", stepA)]
    ∧ LB.filter isMemCall
      = [(gpuStatOr env "memory.used" "MB", stepB),
         (gpuStatOr env "memory.free" "MB", stepB),
         (gpuStatOr env "utilization.memory" "%", stepB)] := by
  obtain ⟨rokA, hLA, -⟩ := on_train_batch_start_ok _ _ _ _ _ _ _ hA
  obtain ⟨rokB, hLB, -⟩ := on_train_batch_end_ok _ _ _ _ _ _ _ hB
  have hrsA : runStats env (startSpecs cfg) stepA
      = ((runStats env (startSpecs cfg) stepA).1, .ok ()) := by
    rw [← rokA]
  have hrsB : runStats env (endSpecs cfg) stepB
      = ((runStats env (endSpecs cfg) stepB).1, .ok ()) := by
    rw [← rokB]
  have hcallsA := runStats_ok_eq env (startSpecs cfg) stepA _ _ hrsA
  have hcallsB := runStats_ok_eq env (endSpecs cfg) stepB _ _ hrsB
  have hmemsA := runStats_ok_mem env (startSpecs cfg) stepA _ _ hrsA
  obtain ⟨b1, hb1⟩ := hmemsA ("memory.used", "MB")
    (by simp [startSpecs, memorySpecs, hmem])
  obtain ⟨b2, hb2⟩ := hmemsA ("memory.free", "MB")
    (by simp [startSpecs, memorySpecs, hmem])
  obtain ⟨b3, hb3⟩ := hmemsA ("utilization.memory", "%")
    (by simp [startSpecs, memorySpecs, hmem])
  obtain ⟨s1, hs1, -⟩ := get_gpu_stat_ok_elim env _ _ _ hb1
  obtain ⟨s2, hs2, -⟩ := get_gpu_stat_ok_elim env _ _ _ hb2
  obtain ⟨s3, hs3, -⟩ := get_gpu_stat_ok_elim env _ _ _ hb3
  have hssA : startSpecs cfg
      = (if cfg.gpu_utilization then usageSpecs else []) ++ memorySpecs := by
    simp [startSpecs, hmem]
  have hssB : endSpecs cfg
      = ((if cfg.gpu_utilization then usageSpecs else []) ++ memorySpecs)
        ++ (if cfg.fan_speed then fanSpecs else [])
        ++ (if cfg.temperature then temperatureSpecs else []) := by
    simp [endSpecs, startSpecs, hmem]
  constructor
  · rw [hLA, hcallsA, hssA]
    simp only [List.map_append, List.filter_append]
    rw [filter_isMemCall_if_specs env cfg.gpu_utilization usageSpecs stepA
          (by decide),
        filter_isMemCall_memory env stepA s1 s2 s3 hs1 hs2 hs3,
        filter_isMemCall_timing_if _ _ _ _ (by decide)]
    simp
  · rw [hLB, hcallsB, hssB]
    simp only [List.map_append, List.filter_append]
    rw [filter_isMemCall_if_specs env cfg.gpu_utilization usageSpecs stepB
          (by decide),
        filter_isMemCall_memory env stepB s1 s2 s3 hs1 hs2 hs3,
        filter_isMemCall_if_specs env cfg.fan_speed fanSpecs stepB
          (by decide),
        filter_isMemCall_if_specs env cfg.temperature temperatureSpecs stepB
          (by decide),
        filter_isMemCall_timing_if _ _ _ _ (by decide)]
    simp

theorem c7_memory_composite_witness :
    (([([(statName "memory.used" "MB" 0, (7 : ℚ))], 0),
       ([(statName "memory.free" "MB" 0, (7 : ℚ))], 0),
       ([(statName "utilization.memory" "%" 0, (7 : ℚ))], 0)] :
        List LogCall).filter isMemCall
      = [(gpuStatOr (fun _ => some "7") "memory.used" "MB", 0),
         (gpuStatOr (fun _ => some "7") "memory.free" "MB", 0),
         (gpuStatOr (fun _ => some "7") "utilization.memory" "%", 0)])
    ∧ (([([(statName "memory.used" "MB" 0, (7 : ℚ))], 1),
       ([(statName "memory.free" "MB" 0, (7 : ℚ))], 1),
       ([(statName "utilization.memory" "%" 0, (7 : ℚ))], 1)] :
        List LogCall).filter isMemCall
      = [(gpuStatOr (fun _ => some "7") "memory.used" "MB", 1),
         (gpuStatOr (fun _ => some "7") "memory.free" "MB", 1),
         (gpuStatOr (fun _ => some "7") "utilization.memory" "%", 1)]) :=
  c7_memory_composite (fun _ => some "7")
    ⟨true, false, false, false, false, false⟩
    ⟨none, none⟩ ⟨none, none⟩ 0 1 0 2
    [([(statName "memory.used" "MB" 0, (7 : ℚ))], 0),
     ([(statName "memory.free" "MB" 0, (7 : ℚ))], 0),
     ([(statName "utilization.memory" "%" 0, (7 : ℚ))], 0)]
    [([(statName "memory.used" "MB" 0, (7 : ℚ))], 1),
     ([(statName "memory.free" "MB" 0, (7 : ℚ))], 1),
     ([(statName "utilization.memory" "%" 0, (7 : ℚ))], 1)]
    ⟨none, none⟩ ⟨none, none⟩ rfl rfl rfl

/-- C10 fails as stated: a step-start at time 0 with intra-step timing
enabled records the timestamp (the hook returns the state with
`snap_intra_step_time = some 0`), yet the following batch-end emits no
intra-step metric at all, because the recorded timestamp 0 is falsy. -/
theorem c10_counterexample :
    ((runEpoch (fun _ => none) ⟨false, false, true, false, false, false⟩
        ⟨none, none⟩ [(0, 0, 1)]).1).filter
      (hasMetricName "batch_time/intra_step (ms)") = []
    ∧ (on_train_batch_start (fun _ => none)
        ⟨false, false, true, false, false, false⟩
        (on_train_epoch_start ⟨none, none⟩) 0 0).2
      = .ok ⟨some 0, none⟩ :=
  ⟨rfl, rfl⟩

/-- C10 (amended): `on_train_batch_end` never modifies
`snap_intra_step_time` (only the epoch-start reset clears it), and every
completing `on_train_batch_end` with intra-step timing enabled whose state
carries a nonzero recorded step-start timestamp emits exactly one
intra-step metric computed from that timestamp — a recorded timestamp of
exactly 0 is treated as absent and suppresses the metric. -/
theorem c10_amended_intra_snapshot_persistence :
    (∀ (env : QueryEnv) (cfg : LogStats) (st : MonitorState) (step : ℕ)
      (now : ℚ) (L : List LogCall) (st' : MonitorState),
      on_train_batch_end env cfg st step now = (L, .ok st') →
      st'.snap_intra_step_time = st.snap_intra_step_time)
    ∧ (∀ st : MonitorState,
      (on_train_epoch_start st).snap_intra_step_time = none)
    ∧ (∀ (env : QueryEnv) (cfg : LogStats) (st : MonitorState) (step : ℕ)
      (now t : ℚ) (L : List LogCall) (st' : MonitorState),
      cfg.intra_step_time = true → st.snap_intra_step_time = some t →
      t ≠ 0 → on_train_batch_end env cfg st step now = (L, .ok st') →
      L.filter (hasMetricName "batch_time/intra_step (ms)")
        = [([("batch_time/intra_step (ms)", (now - t) * 1000)], step)]) := by
  refine ⟨?_, ?_, ?_⟩
  · intro env cfg st step now L st' h
    obtain ⟨-, -, hst⟩ := on_train_batch_end_ok _ _ _ _ _ _ _ h
    rw [hst]
    cases hc : cfg.inter_step_time <;> simp [hc]
  · intro st
    rfl
  · intro env cfg st step now t L st' hia hsnap hz h
    obtain ⟨-, hL, -⟩ := on_train_batch_end_ok _ _ _ _ _ _ _ h
    rw [hL, List.filter_append,
      runStats_filter_timing env _ _ _ (by decide), hsnap]
    simp [hia, pyTruthy, hz, hasMetricName]

theorem c10_amended_intra_snapshot_persistence_witness :
    (on_train_epoch_start ⟨some 3, some 4⟩).snap_intra_step_time = none
    ∧ (([([("batch_time/intra_step (ms)", ((9 : ℚ) - 5) * 1000)], 0)] :
        List LogCall).filter (hasMetricName "batch_time/intra_step (ms)")
      = [([("batch_time/intra_step (ms)", ((9 : ℚ) - 5) * 1000)], 0)])
    ∧ ((⟨some 5, none⟩ : MonitorState).snap_intra_step_time
      = (⟨some 5, none⟩ : MonitorState).snap_intra_step_time) :=
  ⟨c10_amended_intra_snapshot_persistence.2.1 ⟨some 3, some 4⟩,
   c10_amended_intra_snapshot_persistence.2.2 (fun _ => none)
     ⟨false, false, true, false, false, false⟩ ⟨some 5, none⟩ 0 9 5
     [([("batch_time/intra_step (ms)", ((9 : ℚ) - 5) * 1000)], 0)]
     ⟨some 5, none⟩ rfl rfl (by norm_num) rfl,
   c10_amended_intra_snapshot_persistence.1 (fun _ => none)
     ⟨false, false, true, false, false, false⟩ ⟨some 5, none⟩ 0 9
     [([("batch_time/intra_step (ms)", ((9 : ℚ) - 5) * 1000)], 0)]
     ⟨some 5, none⟩ rfl⟩
